import Mathlib

/-!
Verification of the co-expression feature engine of the
coexpression-visualizer repository.

The source is TypeScript; numbers are embedded as exact rationals for every
quantity the code derives by field arithmetic, and as real numbers for the
square-root-valued metric fields (`Math.sqrt`).  A JavaScript `NaN` produced
by an unguarded `0/0` division is modelled as `none : Option ℝ`; a guarded
division stays a plain real.  Lists keep the element order of the JS arrays.
-/

namespace Coexpr

/-! ## Sorting helpers

`[...vec].sort((a, b) => a - b)` sorts numerically ascending; JS `sort` is
stable, and a stable sort's output is uniquely determined by the comparator,
so an insertion sort that keeps earlier elements in front of later equal
elements is an exact model. -/

/-- Insert `x` into an ascending-sorted list, before later equal elements. -/
def insertAsc (x : ℚ) : List ℚ → List ℚ
  | [] => [x]
  | y :: l => if x ≤ y then x :: y :: l else y :: insertAsc x l

/-- Model of `[...vec].sort((a, b) => a - b)`. -/
def sortAsc : List ℚ → List ℚ
  | [] => []
  | x :: l => insertAsc x (sortAsc l)

/-- Insert a `(value, index)` item into a list sorted descending by value,
after earlier items with a greater-or-equal value (stability of JS sort). -/
def insertValDesc (x : ℚ × ℕ) : List (ℚ × ℕ) → List (ℚ × ℕ)
  | [] => [x]
  | y :: l => if y.1 ≤ x.1 then x :: y :: l else y :: insertValDesc x l

/-- Model of `arr.sort((a, b) => b.value - a.value)` on `{value, index}`
items (stable, descending by value, ties keep ascending original index). -/
def sortValDesc : List (ℚ × ℕ) → List (ℚ × ℕ)
  | [] => []
  | x :: l => insertValDesc x (sortValDesc l)

/-! ## Binarization and top-10 helpers, shared verbatim by
`computeFeatures` (src/src/utils/expressionDataExtractor.ts, lines 194-222)
and `computeCorrelationMetrics` (the tissue-cell analysis route,
lines 118-133): both compute the same median threshold, binary vectors,
overlap / union counts. -/

/-- `[...vec].sort((a, b) => a - b)[Math.floor(vec.length / 2)]` — the value
at index `⌊n/2⌋` of the ascending-sorted copy (the upper median for even
length).  `getD _ 0` is never used at a default: callers guard `n ≠ 0`. -/
def jsMedian (v : List ℚ) : ℚ := (sortAsc v).getD (v.length / 2) 0

/-- `vec.map(v => v > median ? 1 : 0)`, kept as booleans. -/
def binarize (v : List ℚ) : List Bool :=
  let m := jsMedian v
  v.map (fun x => m < x)

/-- Positions active in both binarized vectors (`overlap_count` and the
Jaccard numerator); the JS index loop over equal-length arrays is the zip. -/
def overlapCount (v1 v2 : List ℚ) : ℕ :=
  (((binarize v1).zip (binarize v2)).filter (fun p => p.1 && p.2)).length

/-- Positions active in at least one binarized vector (Jaccard denominator). -/
def unionCount (v1 v2 : List ℚ) : ℕ :=
  (((binarize v1).zip (binarize v2)).filter (fun p => p.1 || p.2)).length

/-- `(value, index)` pairs of a vector's tail starting at index `i`. -/
def valueIndexPairsFrom (i : ℕ) : List ℚ → List (ℚ × ℕ)
  | [] => []
  | x :: l => (x, i) :: valueIndexPairsFrom (i + 1) l

/-- `vec.map((v, i) => ({value: v, index: i}))` as `(value, index)` pairs. -/
def valueIndexPairs (v : List ℚ) : List (ℚ × ℕ) :=
  valueIndexPairsFrom 0 v

/-- Indices of the (up to) 10 largest values: sort descending by value
(stable, so ties break by ascending original index), `slice(0, 10)`, map to
the index. -/
def top10Indices (v : List ℚ) : List ℕ :=
  ((sortValDesc (valueIndexPairs v)).take 10).map (fun p => p.2)

/-- `top10_indices1.filter(i => top10_indices2.includes(i)).length`. -/
def sharedTop10 (v1 v2 : List ℚ) : ℕ :=
  ((top10Indices v1).filter (fun i => (top10Indices v2).contains i)).length

/-- Squared Euclidean distance `Σ (v1[i] - v2[i])²` (the quantity under the
`Math.sqrt` of `l2_norm_diff`). -/
def l2Sq (v1 v2 : List ℚ) : ℚ :=
  ((v1.zip v2).map (fun p => (p.1 - p.2) ^ 2)).sum

/-! ## `computeCorrelationMetrics` — the tissue-cell analysis route -/

/-- The five-field metrics record returned by `computeCorrelationMetrics`.
Every division in that function is guarded by the source itself, so each
field is a plain number; the trailing `isNaN(x) ? 0 : x` sanitization is the
identity and needs no separate model. -/
structure CorrelationMetrics where
  pearson_corr : ℝ
  cosine_sim : ℝ
  jaccard_index : ℚ
  l2_norm_diff : ℝ
  overlap_count : ℕ

/-- Embedding of `computeCorrelationMetrics(vec1, vec2)`.
Branches in source order: (1) `vec1.length !== vec2.length ||
vec1.length === 0` returns the all-zero record; (2) `sum1 === 0 || sum2 === 0`
returns zeros except the L2 distance; (3) main branch.  The source's cosine
guard `norm1 === 0 || norm2 === 0` is embedded as the equivalent test on the
squared norms (`√x = 0 ↔ x = 0` for `x ≥ 0`), keeping the condition rational.
The pearson guard is literally the source's test on `sum1Sq` / `sum2Sq`. -/
noncomputable def computeCorrelationMetrics (vec1 vec2 : List ℚ) :
    CorrelationMetrics :=
  if vec1.length ≠ vec2.length ∨ vec1.length = 0 then
    ⟨0, 0, 0, 0, 0⟩
  else
    let sum1 : ℚ := vec1.sum
    let sum2 : ℚ := vec2.sum
    if sum1 = 0 ∨ sum2 = 0 then
      ⟨0, 0, 0, Real.sqrt (l2Sq vec1 vec2), 0⟩
    else
      let mean1 : ℚ := sum1 / vec1.length
      let mean2 : ℚ := sum2 / vec2.length
      let numerator : ℚ := ((vec1.zip vec2).map
        (fun p => (p.1 - mean1) * (p.2 - mean2))).sum
      let sum1Sq : ℚ := (vec1.map (fun x => (x - mean1) ^ 2)).sum
      let sum2Sq : ℚ := (vec2.map (fun x => (x - mean2) ^ 2)).sum
      let pearson : ℝ :=
        if sum1Sq = 0 ∨ sum2Sq = 0 then 0
        else (numerator : ℝ) / Real.sqrt ((sum1Sq * sum2Sq : ℚ) : ℝ)
      let dot : ℚ := ((vec1.zip vec2).map (fun p => p.1 * p.2)).sum
      let normSq1 : ℚ := (vec1.map (fun x => x * x)).sum
      let normSq2 : ℚ := (vec2.map (fun x => x * x)).sum
      let cosine : ℝ :=
        if normSq1 = 0 ∨ normSq2 = 0 then 0
        else (dot : ℝ) / (Real.sqrt (normSq1 : ℝ) * Real.sqrt (normSq2 : ℝ))
      let inter := overlapCount vec1 vec2
      let uni := unionCount vec1 vec2
      ⟨pearson, cosine, if uni = 0 then 0 else (inter : ℚ) / (uni : ℚ),
        Real.sqrt (l2Sq vec1 vec2), inter⟩

/-! ## `computeFeatures` — ExpressionDataExtractor -/

/-- The extractor's seven-field record.  Its pearson and cosine divisions are
unguarded and unsanitized in the source, so those two fields can be the JS
`NaN`, modelled as `none`. -/
structure CoexpressionFeatures where
  pearson_corr : Option ℝ
  cosine_sim : Option ℝ
  jaccard_index : ℚ
  l2_norm_diff : ℝ
  overlap_count : ℕ
  shared_top10_count : ℕ
  common_types : ℕ

/-- Embedding of `ExpressionDataExtractor.computeFeatures(vec1, vec2)`.
`!vec1.length || !vec2.length || vec1.length !== vec2.length` returns `null`.
The pearson division `num / (Math.sqrt(den1) * Math.sqrt(den2))` is non-finite
(NaN) exactly when `den1 = 0` or `den2 = 0` — the numerator is then also `0`
(a zero-variance vector has all deviations zero), giving `0/0`; with both
denominators nonzero the quotient is the plain real.  The cosine division
`dot / (norm1 * norm2)` behaves the same way with the squared norms. -/
noncomputable def computeFeatures (vec1 vec2 : List ℚ) :
    Option CoexpressionFeatures :=
  if vec1.length = 0 ∨ vec2.length = 0 ∨ vec1.length ≠ vec2.length then none
  else
    let mean1 : ℚ := vec1.sum / vec1.length
    let mean2 : ℚ := vec2.sum / vec2.length
    let num : ℚ := ((vec1.zip vec2).map
      (fun p => (p.1 - mean1) * (p.2 - mean2))).sum
    let den1 : ℚ := (vec1.map (fun x => (x - mean1) ^ 2)).sum
    let den2 : ℚ := (vec2.map (fun x => (x - mean2) ^ 2)).sum
    let pearson : Option ℝ :=
      if den1 = 0 ∨ den2 = 0 then none
      else some ((num : ℝ) / (Real.sqrt (den1 : ℝ) * Real.sqrt (den2 : ℝ)))
    let dot : ℚ := ((vec1.zip vec2).map (fun p => p.1 * p.2)).sum
    let normSq1 : ℚ := (vec1.map (fun x => x * x)).sum
    let normSq2 : ℚ := (vec2.map (fun x => x * x)).sum
    let cosine : Option ℝ :=
      if normSq1 = 0 ∨ normSq2 = 0 then none
      else some ((dot : ℝ) / (Real.sqrt (normSq1 : ℝ) * Real.sqrt (normSq2 : ℝ)))
    let inter := overlapCount vec1 vec2
    let uni := unionCount vec1 vec2
    some ⟨pearson, cosine,
      if uni = 0 then 0 else (inter : ℚ) / (uni : ℚ),
      Real.sqrt (l2Sq vec1 vec2), inter, sharedTop10 vec1 vec2, vec1.length⟩


/-! ## Claim C1 — Scenario A on identical vectors `[1,2,3,4]` -/

/-- Claim C1, counterexample: the claim asserts `overlap_count = 2` for the
median-binarized identical vectors `[1,2,3,4]`.  The code's median is the
value at index `⌊4/2⌋ = 2` of the sorted copy, i.e. `3` (the upper median,
not the midpoint `2.5`), and only the value `4` exceeds it, so exactly one
position is active in each binarized vector and the overlap count is `1`. -/
theorem C1_cex_overlap_not_two :
    (computeCorrelationMetrics [1, 2, 3, 4] [1, 2, 3, 4]).overlap_count ≠ 2 := by
  simp only [computeCorrelationMetrics, l2Sq, overlapCount, unionCount, binarize,
    jsMedian, sortAsc, insertAsc, List.zip, List.zipWith, List.map, List.sum_cons,
    List.sum_nil, List.length, List.getD, List.get?, List.filter]
  norm_num

/-- Claim C1, amended: on the identical vectors `[1,2,3,4]`, both metric
implementations return `pearson_corr = 1`, `cosine_sim = 1`,
`jaccard_index = 1`, `l2_norm_diff = 0` and `overlap_count = 1` (not `2`:
only one value exceeds the code's median threshold `3`). -/
theorem C1_amended_scenarioA :
    (computeCorrelationMetrics [1, 2, 3, 4] [1, 2, 3, 4]).pearson_corr = 1 ∧
    (computeCorrelationMetrics [1, 2, 3, 4] [1, 2, 3, 4]).cosine_sim = 1 ∧
    (computeCorrelationMetrics [1, 2, 3, 4] [1, 2, 3, 4]).jaccard_index = 1 ∧
    (computeCorrelationMetrics [1, 2, 3, 4] [1, 2, 3, 4]).l2_norm_diff = 0 ∧
    (computeCorrelationMetrics [1, 2, 3, 4] [1, 2, 3, 4]).overlap_count = 1 ∧
    ((computeFeatures [1, 2, 3, 4] [1, 2, 3, 4]).map (fun f => f.pearson_corr))
      = some (some 1) ∧
    ((computeFeatures [1, 2, 3, 4] [1, 2, 3, 4]).map (fun f => f.cosine_sim))
      = some (some 1) ∧
    ((computeFeatures [1, 2, 3, 4] [1, 2, 3, 4]).map (fun f => f.jaccard_index))
      = some 1 ∧
    ((computeFeatures [1, 2, 3, 4] [1, 2, 3, 4]).map (fun f => f.l2_norm_diff))
      = some 0 ∧
    ((computeFeatures [1, 2, 3, 4] [1, 2, 3, 4]).map (fun f => f.overlap_count))
      = some 1 := by
  have h25 : Real.sqrt 25 = 5 := by
    rw [show ((25 : ℝ)) = 5 ^ 2 by norm_num, Real.sqrt_sq (by norm_num : (0:ℝ) ≤ 5)]
  have h5 : Real.sqrt 5 * Real.sqrt 5 = 5 :=
    Real.mul_self_sqrt (by norm_num : (0:ℝ) ≤ 5)
  have h30 : Real.sqrt 30 * Real.sqrt 30 = 30 :=
    Real.mul_self_sqrt (by norm_num : (0:ℝ) ≤ 30)
  simp only [computeCorrelationMetrics, computeFeatures, l2Sq, overlapCount,
    unionCount, binarize, jsMedian, sortAsc, insertAsc, sharedTop10, top10Indices,
    sortValDesc, insertValDesc, valueIndexPairs, valueIndexPairsFrom, List.zip,
    List.zipWith, List.map, List.sum_cons, List.sum_nil, List.length, List.getD,
    List.get?, List.filter, List.take, List.contains, List.elem, Option.map]
  norm_num [h25, h5, h30]

/-! ## Claim C10 — totality of `computeCorrelationMetrics` on degenerate
length combinations -/

/-- Claim C10: for vectors of unequal length, or with a zero-length first
vector, `computeCorrelationMetrics` returns the all-zero metrics record
(its first guard), so the function is total over all vector pairs. -/
theorem C10_zero_record_on_degenerate_lengths (v1 v2 : List ℚ)
    (h : v1.length ≠ v2.length ∨ v1.length = 0) :
    (computeCorrelationMetrics v1 v2).pearson_corr = 0 ∧
    (computeCorrelationMetrics v1 v2).cosine_sim = 0 ∧
    (computeCorrelationMetrics v1 v2).jaccard_index = 0 ∧
    (computeCorrelationMetrics v1 v2).l2_norm_diff = 0 ∧
    (computeCorrelationMetrics v1 v2).overlap_count = 0 := by
  unfold computeCorrelationMetrics
  rw [if_pos h]
  exact ⟨rfl, rfl, rfl, rfl, rfl⟩

/-- Claim C10, witness: the guard fires on the concrete unequal-length pair
`[1,2]` / `[1]` and every metric field is `0` there. -/
theorem C10_witness :
    (([1, 2] : List ℚ).length ≠ ([1] : List ℚ).length ∨
      ([1, 2] : List ℚ).length = 0) ∧
    ((computeCorrelationMetrics [1, 2] [1]).pearson_corr = 0 ∧
     (computeCorrelationMetrics [1, 2] [1]).cosine_sim = 0 ∧
     (computeCorrelationMetrics [1, 2] [1]).jaccard_index = 0 ∧
     (computeCorrelationMetrics [1, 2] [1]).l2_norm_diff = 0 ∧
     (computeCorrelationMetrics [1, 2] [1]).overlap_count = 0) :=
  ⟨Or.inl (by decide),
    C10_zero_record_on_degenerate_lengths [1, 2] [1] (Or.inl (by decide))⟩

/-! ## Claim C8 — zero-length vectors -/

/-- Claim C8, counterexample: the claim says the engine applied to two
zero-length vectors returns an all-zero metrics record without signalling
failure; `ExpressionDataExtractor.computeFeatures` instead returns `null`
(`!vec1.length` guard), i.e. it signals failure. -/
theorem C8_cex_null_on_empty : computeFeatures [] [] = none := rfl

/-- Claim C8, amended: on zero-length vectors, `computeCorrelationMetrics`
returns the all-zero five-field record (its record has no shared-top-k
field), while the extractor's `computeFeatures` returns `null` instead of a
record. -/
theorem C8_amended_empty_vectors :
    (computeCorrelationMetrics [] []).pearson_corr = 0 ∧
    (computeCorrelationMetrics [] []).cosine_sim = 0 ∧
    (computeCorrelationMetrics [] []).jaccard_index = 0 ∧
    (computeCorrelationMetrics [] []).l2_norm_diff = 0 ∧
    (computeCorrelationMetrics [] []).overlap_count = 0 ∧
    computeFeatures [] [] = none := by
  refine ⟨?_, ?_, ?_, ?_, ?_, rfl⟩ <;>
    · simp [computeCorrelationMetrics]

/-! ## Claim C3 — pearson on zero-variance input -/

/-- Claim C3, counterexample: `computeFeatures` divides by
`Math.sqrt(den1) * Math.sqrt(den2)` with no zero-variance guard and no NaN
sanitization: for `[1,1]` (zero variance) against `[1,2]` the division is
`0/0` and the returned `pearson_corr` is NaN, not `0`. -/
theorem C3_cex_nan_pearson :
    ((computeFeatures [1, 1] [1, 2]).map (fun f => f.pearson_corr))
      = some none := by
  simp only [computeFeatures, List.zip, List.zipWith, List.map, List.sum_cons,
    List.sum_nil, List.length, Option.map]
  norm_num

lemma sum_map_sq_nonneg {α : Type} (l : List α) (f : α → ℚ) :
    0 ≤ (l.map (fun x => f x ^ 2)).sum := by
  induction l with
  | nil => simp
  | cons a t ih =>
    simp only [List.map_cons, List.sum_cons]
    have := sq_nonneg (f a)
    linarith

lemma list_cauchy_schwarz (l : List (ℚ × ℚ)) :
    ((l.map (fun p => p.1 * p.2)).sum) ^ 2 ≤
      (l.map (fun p => p.1 ^ 2)).sum * (l.map (fun p => p.2 ^ 2)).sum := by
  induction l with
  | nil => simp
  | cons a t ih =>
    simp only [List.map_cons, List.sum_cons]
    have hA : 0 ≤ (t.map (fun p => p.1 ^ 2)).sum := sum_map_sq_nonneg t Prod.fst
    have hB : 0 ≤ (t.map (fun p => p.2 ^ 2)).sum := sum_map_sq_nonneg t Prod.snd
    rcases eq_or_lt_of_le hB with hB0 | hBpos
    · have hS : (t.map (fun p => p.1 * p.2)).sum = 0 := by
        nlinarith [ih, sq_nonneg ((t.map (fun p => p.1 * p.2)).sum)]
      rw [hS, ← hB0]
      nlinarith [sq_nonneg a.1, sq_nonneg a.2, hA]
    · nlinarith [sq_nonneg (a.1 * (t.map (fun p => p.2 ^ 2)).sum
          - (t.map (fun p => p.1 * p.2)).sum * a.2),
        mul_le_mul_of_nonneg_right ih (le_of_lt hBpos),
        mul_le_mul_of_nonneg_right ih (sq_nonneg a.2), hBpos, hA]

lemma zip_cauchy_schwarz (v1 v2 : List ℚ) (h : v1.length = v2.length)
    (m1 m2 : ℚ) :
    (((v1.zip v2).map (fun p => (p.1 - m1) * (p.2 - m2))).sum) ^ 2 ≤
      ((v1.map (fun x => (x - m1) ^ 2)).sum) *
        ((v2.map (fun x => (x - m2) ^ 2)).sum) := by
  have key := list_cauchy_schwarz ((v1.zip v2).map (fun p => (p.1 - m1, p.2 - m2)))
  simp only [List.map_map, Function.comp_def] at key
  have h1 : ((v1.zip v2).map (fun p => (p.1 - m1) ^ 2)).sum
      = (v1.map (fun x => (x - m1) ^ 2)).sum := by
    have hfst := List.map_fst_zip v1 v2 (le_of_eq h)
    have hmm : ((v1.zip v2).map (fun p => (p.1 - m1) ^ 2)).sum
        = (((v1.zip v2).map Prod.fst).map (fun x => (x - m1) ^ 2)).sum := by
      simp only [List.map_map, Function.comp_def]
    rw [hmm, hfst]
  have h2 : ((v1.zip v2).map (fun p => (p.2 - m2) ^ 2)).sum
      = (v2.map (fun x => (x - m2) ^ 2)).sum := by
    have hsnd := List.map_snd_zip v1 v2 (le_of_eq h.symm)
    have hmm : ((v1.zip v2).map (fun p => (p.2 - m2) ^ 2)).sum
        = (((v1.zip v2).map Prod.snd).map (fun x => (x - m2) ^ 2)).sum := by
      simp only [List.map_map, Function.comp_def]
    rw [hmm, hsnd]
  rw [h1, h2] at key
  exact key

/-- Sum of squared deviations from the mean: a vector has zero variance iff
this is `0`. -/
def sqDevSum (v : List ℚ) : ℚ :=
  (v.map (fun x => (x - v.sum / (v.length : ℚ)) ^ 2)).sum

/-- Claim C3, amended: for `computeCorrelationMetrics` (the guarded
implementation) the returned `pearson_corr` always lies in `[-1, 1]` — by
Cauchy-Schwarz in the main branch — and is exactly `0` whenever either
vector has zero variance (sum of squared deviations `0`); the field is a
plain real in every branch, hence never NaN.  The extractor's
`computeFeatures`, by contrast, yields a NaN pearson on zero-variance input
(see the counterexample). -/
theorem C3_amended_pearson_bounded (v1 v2 : List ℚ) :
    -1 ≤ (computeCorrelationMetrics v1 v2).pearson_corr ∧
    (computeCorrelationMetrics v1 v2).pearson_corr ≤ 1 ∧
    ((sqDevSum v1 = 0 ∨ sqDevSum v2 = 0) →
      (computeCorrelationMetrics v1 v2).pearson_corr = 0) := by
  simp only [computeCorrelationMetrics, sqDevSum,
    apply_ite CorrelationMetrics.pearson_corr]
  split_ifs with hlen hsum hsq
  · norm_num
  · norm_num
  · norm_num
  · -- main branch: Cauchy-Schwarz bound
    push_neg at hlen hsq
    obtain ⟨hl, _⟩ := hlen
    have hlen2 : v1.length = v2.length := hl
    set m1 := v1.sum / (v1.length : ℚ) with hm1
    set m2 := v2.sum / (v2.length : ℚ) with hm2
    set N := ((v1.zip v2).map (fun p => (p.1 - m1) * (p.2 - m2))).sum with hN
    set A := (v1.map (fun x => (x - m1) ^ 2)).sum with hA
    set B := (v2.map (fun x => (x - m2) ^ 2)).sum with hB
    have hCS : N ^ 2 ≤ A * B := zip_cauchy_schwarz v1 v2 hlen2 m1 m2
    have hA0 : 0 ≤ A := sum_map_sq_nonneg v1 (fun x => x - m1)
    have hB0 : 0 ≤ B := sum_map_sq_nonneg v2 (fun x => x - m2)
    have hApos : 0 < A := lt_of_le_of_ne hA0 (Ne.symm hsq.1)
    have hBpos : 0 < B := lt_of_le_of_ne hB0 (Ne.symm hsq.2)
    have hABpos : (0 : ℝ) < ((A * B : ℚ) : ℝ) := by
      have : (0 : ℚ) < A * B := mul_pos hApos hBpos
      exact_mod_cast this
    have hsqrtpos : 0 < Real.sqrt ((A * B : ℚ) : ℝ) := Real.sqrt_pos.mpr hABpos
    have habs : |(N : ℝ)| ≤ Real.sqrt ((A * B : ℚ) : ℝ) := by
      rw [← Real.sqrt_sq_eq_abs]
      apply Real.sqrt_le_sqrt
      have : ((N ^ 2 : ℚ) : ℝ) ≤ ((A * B : ℚ) : ℝ) := by exact_mod_cast hCS
      push_cast at this ⊢
      linarith
    have hdiv : |(N : ℝ) / Real.sqrt ((A * B : ℚ) : ℝ)| ≤ 1 := by
      rw [abs_div, abs_of_nonneg (le_of_lt hsqrtpos)]
      rw [div_le_one hsqrtpos]
      exact habs
    rw [abs_le] at hdiv
    refine ⟨hdiv.1, hdiv.2, ?_⟩
    intro hzv
    rcases hzv with hz | hz
    · exact absurd hz hsq.1
    · exact absurd hz hsq.2


/-- Claim C3, witness: at `[1,1]` (zero variance) against `[1,2]`, the
amended theorem's zero-variance implication fires and the guarded
implementation returns pearson `0`. -/
theorem C3_witness :
    sqDevSum [1, 1] = 0 ∧
    (computeCorrelationMetrics [1, 1] [1, 2]).pearson_corr = 0 := by
  have hz : sqDevSum [1, 1] = 0 := by
    simp only [sqDevSum, List.map_cons, List.map_nil, List.sum_cons,
      List.sum_nil, List.length_cons, List.length_nil]
    norm_num
  exact ⟨hz, (C3_amended_pearson_bounded [1, 1] [1, 2]).2.2 (Or.inl hz)⟩

/-! ## `compute_coexpression_features` — the Feature Combiner
(src/src/utils/expressionDataExtractor.ts lines 135-164) -/

/-- JS average `(a + b) / 2` of two possibly-NaN numbers: a NaN operand
makes the result NaN. -/
noncomputable def nanAvg (a b : Option ℝ) : Option ℝ :=
  match a, b with
  | some x, some y => some ((x + y) / 2)
  | _, _ => none

/-- `Math.round((a + b) / 2)` for natural counts: the half case rounds up,
so the result is `⌊(a + b + 1) / 2⌋`. -/
def roundHalfSum (a b : ℕ) : ℕ := (a + b + 1) / 2

/-- Embedding of `compute_coexpression_features(receptorExpr, ligandExpr)`:
per-axis features are computed by `computeFeatures`, and the returned record
is their elementwise average (`common_types` summed, the two counts rounded);
`null` when either per-axis computation returned `null`.  The `try/catch`
wrapper catches nothing on this path. -/
noncomputable def compute_coexpression_features
    (receptorExpr ligandExpr : List ℚ × List ℚ) : Option CoexpressionFeatures :=
  match computeFeatures receptorExpr.1 ligandExpr.1,
      computeFeatures receptorExpr.2 ligandExpr.2 with
  | some tissueFeatures, some cellFeatures =>
      some ⟨nanAvg tissueFeatures.pearson_corr cellFeatures.pearson_corr,
        nanAvg tissueFeatures.cosine_sim cellFeatures.cosine_sim,
        (tissueFeatures.jaccard_index + cellFeatures.jaccard_index) / 2,
        (tissueFeatures.l2_norm_diff + cellFeatures.l2_norm_diff) / 2,
        roundHalfSum tissueFeatures.overlap_count cellFeatures.overlap_count,
        roundHalfSum tissueFeatures.shared_top10_count
          cellFeatures.shared_top10_count,
        tissueFeatures.common_types + cellFeatures.common_types⟩
  | _, _ => none

/-- Elementwise average of two per-axis metric records, as the amended claim
describes the combiner's output: scalar metrics averaged (NaN propagating),
the integer counts rounded, `common_types` summed. -/
noncomputable def averagedFeatures (t c : CoexpressionFeatures) :
    CoexpressionFeatures :=
  ⟨nanAvg t.pearson_corr c.pearson_corr,
    nanAvg t.cosine_sim c.cosine_sim,
    (t.jaccard_index + c.jaccard_index) / 2,
    (t.l2_norm_diff + c.l2_norm_diff) / 2,
    roundHalfSum t.overlap_count c.overlap_count,
    roundHalfSum t.shared_top10_count c.shared_top10_count,
    t.common_types + c.common_types⟩

/-- Modelled on the claim's wording (spec section 4.3) for comparison: the
combined metrics as one Engine call on the concatenated tissue++cell
vectors. -/
noncomputable def combinedViaConcat
    (receptorExpr ligandExpr : List ℚ × List ℚ) : Option CoexpressionFeatures :=
  computeFeatures (receptorExpr.1 ++ receptorExpr.2)
    (ligandExpr.1 ++ ligandExpr.2)

/-- Claim C2, counterexample: for tissue vectors `[0,1]` / `[1,0]` and cell
vectors `[0,2]` / `[0,2]`, the combiner returns pearson `0` (the average of
`-1` and `1`), while the Engine applied to the concatenations
`[0,1,0,2]` / `[1,0,0,2]` returns pearson `7/11`; the produced value is not
the concatenation-based one. -/
theorem C2_cex_average_not_concat :
    ((compute_coexpression_features ([0, 1], [0, 2]) ([1, 0], [0, 2])).map
      (fun f => f.pearson_corr)) = some (some 0) ∧
    ((combinedViaConcat ([0, 1], [0, 2]) ([1, 0], [0, 2])).map
      (fun f => f.pearson_corr)) = some (some (7 / 11)) ∧
    ((compute_coexpression_features ([0, 1], [0, 2]) ([1, 0], [0, 2])).map
      (fun f => f.pearson_corr)) ≠
      ((combinedViaConcat ([0, 1], [0, 2]) ([1, 0], [0, 2])).map
        (fun f => f.pearson_corr)) := by
  have h2 : Real.sqrt 2 * Real.sqrt 2 = 2 :=
    Real.mul_self_sqrt (by norm_num : (0:ℝ) ≤ 2)
  have hinv2 : ((Real.sqrt 2)⁻¹ * (Real.sqrt 2)⁻¹ : ℝ) = 1 / 2 := by
    rw [← mul_inv, h2]; norm_num
  have h11 : Real.sqrt 11 * Real.sqrt 11 = 11 :=
    Real.mul_self_sqrt (by norm_num : (0:ℝ) ≤ 11)
  have h4 : Real.sqrt 4 = 2 := by
    rw [show (4:ℝ) = 2 ^ 2 by norm_num, Real.sqrt_sq (by norm_num : (0:ℝ) ≤ 2)]
  have ha : ((compute_coexpression_features ([0, 1], [0, 2]) ([1, 0], [0, 2])).map
      (fun f => f.pearson_corr)) = some (some 0) := by
    simp only [compute_coexpression_features, computeFeatures, nanAvg,
      roundHalfSum, l2Sq, overlapCount, unionCount, binarize, jsMedian,
      sortAsc, insertAsc, sharedTop10, top10Indices, sortValDesc,
      insertValDesc, valueIndexPairs, valueIndexPairsFrom, List.zip,
      List.zipWith, List.map, List.sum_cons, List.sum_nil, List.length,
      List.getD, List.get?, List.filter, List.take, List.contains, List.elem,
      Option.map]
    norm_num
    rw [hinv2]
    norm_num
  have hb : ((combinedViaConcat ([0, 1], [0, 2]) ([1, 0], [0, 2])).map
      (fun f => f.pearson_corr)) = some (some (7 / 11)) := by
    simp only [combinedViaConcat, computeFeatures, l2Sq, overlapCount,
      unionCount, binarize, jsMedian, sortAsc, insertAsc, sharedTop10,
      top10Indices, sortValDesc, insertValDesc, valueIndexPairs,
      valueIndexPairsFrom, List.zip, List.zipWith, List.map, List.append,
      List.sum_cons, List.sum_nil, List.length, List.getD, List.get?,
      List.filter, List.take, List.contains, List.elem, Option.map]
    norm_num
    rw [h4, div_mul_div_comm, h11]
    norm_num
  refine ⟨ha, hb, ?_⟩
  rw [ha, hb]
  simp only [ne_eq, Option.some.injEq]
  norm_num

/-- Claim C2, amended: the combination produced by
`compute_coexpression_features` is the elementwise average of the per-axis
tissue and cell records (scalar metrics averaged, the integer counts rounded
to nearest, `common_types` summed), returned as one flat record — not an
Engine call on the concatenated vectors, and with no separate `combined`
field. -/
theorem C2_amended_combined_is_average
    (rt rc lt lc : List ℚ) (tf cf : CoexpressionFeatures)
    (ht : computeFeatures rt lt = some tf)
    (hc : computeFeatures rc lc = some cf) :
    compute_coexpression_features (rt, rc) (lt, lc)
      = some (averagedFeatures tf cf) := by
  simp only [compute_coexpression_features, averagedFeatures]
  rw [ht, hc]

/-- Claim C2, witness: concrete per-axis records for tissue vectors
`[2,4]` / `[2,4]` and cell vectors `[1,2]` / `[1,2]`, and the combiner's
output as their elementwise average. -/
theorem C2_witness :
    computeFeatures [2, 4] [2, 4] = some ⟨some 1, some 1, 0, 0, 0, 2, 2⟩ ∧
    computeFeatures [1, 2] [1, 2] = some ⟨some 1, some 1, 0, 0, 0, 2, 2⟩ ∧
    compute_coexpression_features ([2, 4], [1, 2]) ([2, 4], [1, 2])
      = some (averagedFeatures ⟨some 1, some 1, 0, 0, 0, 2, 2⟩
          ⟨some 1, some 1, 0, 0, 0, 2, 2⟩) := by
  have h2 : Real.sqrt 2 * Real.sqrt 2 = 2 :=
    Real.mul_self_sqrt (by norm_num : (0:ℝ) ≤ 2)
  have hinv2 : ((Real.sqrt 2)⁻¹ * (Real.sqrt 2)⁻¹ : ℝ) = 1 / 2 := by
    rw [← mul_inv, h2]; norm_num
  have h20 : Real.sqrt 20 * Real.sqrt 20 = 20 :=
    Real.mul_self_sqrt (by norm_num : (0:ℝ) ≤ 20)
  have h5 : Real.sqrt 5 * Real.sqrt 5 = 5 :=
    Real.mul_self_sqrt (by norm_num : (0:ℝ) ≤ 5)
  have ht : computeFeatures [2, 4] [2, 4]
      = some ⟨some 1, some 1, 0, 0, 0, 2, 2⟩ := by
    simp only [computeFeatures, l2Sq, overlapCount, unionCount, binarize,
      jsMedian, sortAsc, insertAsc, sharedTop10, top10Indices, sortValDesc,
      insertValDesc, valueIndexPairs, valueIndexPairsFrom, List.zip,
      List.zipWith, List.map, List.sum_cons, List.sum_nil, List.length,
      List.getD, List.get?, List.filter, List.take, List.contains, List.elem,
      CoexpressionFeatures.mk.injEq]
    norm_num [h2, h20]
  have hc : computeFeatures [1, 2] [1, 2]
      = some ⟨some 1, some 1, 0, 0, 0, 2, 2⟩ := by
    simp only [computeFeatures, l2Sq, overlapCount, unionCount, binarize,
      jsMedian, sortAsc, insertAsc, sharedTop10, top10Indices, sortValDesc,
      insertValDesc, valueIndexPairs, valueIndexPairsFrom, List.zip,
      List.zipWith, List.map, List.sum_cons, List.sum_nil, List.length,
      List.getD, List.get?, List.filter, List.take, List.contains, List.elem,
      CoexpressionFeatures.mk.injEq]
    norm_num [hinv2, h5]
  exact ⟨ht, hc, C2_amended_combined_is_average [2, 4] [1, 2] [2, 4] [1, 2]
    ⟨some 1, some 1, 0, 0, 0, 2, 2⟩ ⟨some 1, some 1, 0, 0, 0, 2, 2⟩ ht hc⟩

/-! ## Vector Builder — `handleTissueSpecificAnalysis` (tissue-cell
analysis route, lines 145-209) -/

/-- One MongoDB expression record (the route's `ExpressionRecord`
interface); numeric fields as exact rationals. -/
structure ExpressionRecord where
  gene : String
  gene_name : String
  tissue : String
  cluster : String
  cell_type : String
  read_count : ℚ
  nTPM : ℚ
  cell_type_full : String
  tissue_cell_combo : String
deriving DecidableEq

/-- ASCII lowering of one character: the effect of JS `toLowerCase()` on
the ASCII gene identifiers this code compares. -/
def lowerChar (c : Char) : Char :=
  if 65 ≤ c.toNat ∧ c.toNat ≤ 90 then Char.ofNat (c.toNat + 32) else c

/-- JS `s.toLowerCase()` on an ASCII string, as its lowered character
list. -/
def lowerStr (s : String) : List Char := s.data.map lowerChar

/-- Case-insensitive entity match:
`row.gene_name.toLowerCase() === g.toLowerCase() ||
row.gene.toLowerCase() === g.toLowerCase()`. -/
def matchesGene (g : String) (r : ExpressionRecord) : Bool :=
  lowerStr r.gene_name == lowerStr g || lowerStr r.gene == lowerStr g

/-- Helper for `[...new Set(arr)]` with an accumulator of already-seen
values. -/
def jsSetDedupAux (seen : List String) : List String → List String
  | [] => []
  | a :: l =>
    if seen.contains a then jsSetDedupAux seen l
    else a :: jsSetDedupAux (a :: seen) l

/-- `[...new Set(arr)]`: deduplication keeping first occurrences in
insertion order (JS `Set` iteration order). -/
def jsSetDedup (l : List String) : List String := jsSetDedupAux [] l

/-- The route's per-category loop body: for each `cell_type_full` of the
first entity's tissue-filtered records (in order), look up the first
matching record of each entity and push both `nTPM` values only when both
exist.  The JS push-loop is embedded as an order-preserving recursion over
the category list. -/
def collectPairedNTPM (g1T g2T : List ExpressionRecord) :
    List String → List ℚ × List ℚ
  | [] => ([], [])
  | ct :: rest =>
    let tail := collectPairedNTPM g1T g2T rest
    match g1T.find? (fun r => r.cell_type_full == ct),
        g2T.find? (fun r => r.cell_type_full == ct) with
    | some gene1Cell, some gene2Cell =>
      (gene1Cell.nTPM :: tail.1, gene2Cell.nTPM :: tail.2)
    | _, _ => tail

/-- Composition of the route's two filters (`gene1Data` then
`gene1TissueData` in the source): records matching the entity
case-insensitively, restricted to one tissue. -/
def tissueFiltered (records : List ExpressionRecord) (gene tissue : String) :
    List ExpressionRecord :=
  (records.filter (fun r => matchesGene gene r)).filter
    (fun r => r.tissue == tissue)

/-- Embedding of the per-tissue vector construction of
`handleTissueSpecificAnalysis` (lines 179-200): filter each gene's records
(case-insensitive), restrict to the tissue, take the distinct
`cell_type_full` values of the FIRST gene's records only
(`[...new Set(gene1TissueData.map(row => row.cell_type_full))]`), and
collect the paired intensities. -/
def buildTissueVectors (records : List ExpressionRecord)
    (gene1 gene2 tissue : String) : List ℚ × List ℚ :=
  collectPairedNTPM (tissueFiltered records gene1 tissue)
    (tissueFiltered records gene2 tissue)
    (jsSetDedup ((tissueFiltered records gene1 tissue).map
      (fun r => r.cell_type_full)))

/-- Modelled on the claim's wording (spec section 4.1), for comparison with
the code: the category set as the union of categories present in the
filtered records of either entity, in first-appearance order. -/
def unionCategories (records : List ExpressionRecord)
    (gene1 gene2 tissue : String) : List String :=
  jsSetDedup (((tissueFiltered records gene1 tissue).map
      (fun r => r.cell_type_full))
    ++ ((tissueFiltered records gene2 tissue).map
      (fun r => r.cell_type_full)))

/-- Concrete record set for the C6 counterexample: entity `G1` has one
record in category `A`; entity `G2` has records in `A` and `B`, all with
nonzero intensity. -/
def c6Records : List ExpressionRecord :=
  [⟨"ENSG1", "G1", "liver", "c1", "A", 10, 1, "A", "liver A"⟩,
   ⟨"ENSG2", "G2", "liver", "c1", "A", 10, 2, "A", "liver A"⟩,
   ⟨"ENSG2", "G2", "liver", "c2", "B", 10, 3, "B", "liver B"⟩]

/-- Claim C6, counterexample: category `B`, present only for the second
entity (with nonzero intensity), contributes no position — the aligned
vectors have length 1 while the union of categories has 2 elements. -/
theorem C6_cex_union_category_dropped :
    (buildTissueVectors c6Records "G1" "G2" "liver").1 = [1] ∧
    (buildTissueVectors c6Records "G1" "G2" "liver").2 = [2] ∧
    unionCategories c6Records "G1" "G2" "liver" = ["A", "B"] ∧
    (buildTissueVectors c6Records "G1" "G2" "liver").1.length ≠
      (unionCategories c6Records "G1" "G2" "liver").length := by
  decide

/-- The category list the code actually aligns on: the distinct
`cell_type_full` values of the FIRST entity's tissue records, kept only when
the second entity also has a record there. -/
def alignedCategories (records : List ExpressionRecord)
    (gene1 gene2 tissue : String) : List String :=
  (jsSetDedup ((tissueFiltered records gene1 tissue).map
      (fun r => r.cell_type_full))).filter
    (fun ct => ((tissueFiltered records gene2 tissue).find?
      (fun r => r.cell_type_full == ct)).isSome)

lemma jsSetDedupAux_subset (l : List String) :
    ∀ (seen : List String) (a : String), a ∈ jsSetDedupAux seen l → a ∈ l := by
  induction l with
  | nil => intro seen a h; simp [jsSetDedupAux] at h
  | cons b t ih =>
    intro seen a h
    simp only [jsSetDedupAux] at h
    by_cases hb : seen.contains b
    · rw [if_pos hb] at h
      exact List.mem_cons_of_mem b (ih seen a h)
    · rw [if_neg hb] at h
      rcases List.mem_cons.mp h with rfl | h2
      · exact List.mem_cons_self a t
      · exact List.mem_cons_of_mem b (ih (b :: seen) a h2)

lemma jsSetDedup_subset (l : List String) (a : String)
    (h : a ∈ jsSetDedup l) : a ∈ l :=
  jsSetDedupAux_subset l [] a h

lemma find_cell_type_isSome (l : List ExpressionRecord) (a : String)
    (h : a ∈ l.map (fun r => r.cell_type_full)) :
    (l.find? (fun r => r.cell_type_full == a)).isSome := by
  induction l with
  | nil => simp at h
  | cons r t ih =>
    by_cases hbeq : r.cell_type_full == a
    · simp [List.find?_cons, hbeq]
    · have h2 : a ∈ t.map (fun r => r.cell_type_full) := by
        simp only [List.map_cons, List.mem_cons] at h
        rcases h with h | h
        · exact absurd (beq_iff_eq.mpr h.symm) hbeq
        · exact h
      simp [List.find?_cons, hbeq, ih h2]

lemma collectPairedNTPM_eq (g1T g2T : List ExpressionRecord)
    (cts : List String)
    (h1 : ∀ ct ∈ cts, (g1T.find? (fun r => r.cell_type_full == ct)).isSome) :
    collectPairedNTPM g1T g2T cts
      = ((cts.filter (fun ct => (g2T.find?
            (fun r => r.cell_type_full == ct)).isSome)).map
          (fun ct => ((g1T.find? (fun r => r.cell_type_full == ct)).map
            (fun r => r.nTPM)).getD 0),
         (cts.filter (fun ct => (g2T.find?
            (fun r => r.cell_type_full == ct)).isSome)).map
          (fun ct => ((g2T.find? (fun r => r.cell_type_full == ct)).map
            (fun r => r.nTPM)).getD 0)) := by
  induction cts with
  | nil => rfl
  | cons ct rest ih =>
    have hct := h1 ct (List.mem_cons_self ct rest)
    have hrest := fun c hc => h1 c (List.mem_cons_of_mem ct hc)
    obtain ⟨c1, hc1⟩ := Option.isSome_iff_exists.mp hct
    cases hfind2 : g2T.find? (fun r => r.cell_type_full == ct) with
    | none =>
      simp only [collectPairedNTPM, hfind2, hc1, ih hrest, List.filter_cons,
        Option.isSome_none, Bool.false_eq_true, if_false]
    | some c2 =>
      simp [collectPairedNTPM, hfind2, hc1, ih hrest, List.filter_cons]

/-- Claim C6, amended: the category set over which the tissue-specific
Vector Builder aligns the two vectors is NOT the union — it is the list of
distinct categories of the FIRST entity's filtered records (in
first-appearance order) restricted to those where the second entity also
has a record; both vectors map those categories to the first matching
record's intensity, and every aligned category comes from the first
entity's records, so a category present only for the second entity never
contributes a position. -/
theorem C6_amended_first_entity_intersection (records : List ExpressionRecord)
    (gene1 gene2 tissue : String) :
    (buildTissueVectors records gene1 gene2 tissue).1
      = (alignedCategories records gene1 gene2 tissue).map
          (fun ct => (((tissueFiltered records gene1 tissue).find?
            (fun r => r.cell_type_full == ct)).map (fun r => r.nTPM)).getD 0) ∧
    (buildTissueVectors records gene1 gene2 tissue).2
      = (alignedCategories records gene1 gene2 tissue).map
          (fun ct => (((tissueFiltered records gene2 tissue).find?
            (fun r => r.cell_type_full == ct)).map (fun r => r.nTPM)).getD 0) ∧
    ∀ ct, ct ∈ alignedCategories records gene1 gene2 tissue →
      ct ∈ (tissueFiltered records gene1 tissue).map
        (fun r => r.cell_type_full) := by
  have h1 : ∀ ct ∈ jsSetDedup ((tissueFiltered records gene1 tissue).map
      (fun r => r.cell_type_full)),
      ((tissueFiltered records gene1 tissue).find?
        (fun r => r.cell_type_full == ct)).isSome :=
    fun ct h => find_cell_type_isSome _ ct (jsSetDedup_subset _ ct h)
  have key := collectPairedNTPM_eq (tissueFiltered records gene1 tissue)
    (tissueFiltered records gene2 tissue)
    (jsSetDedup ((tissueFiltered records gene1 tissue).map
      (fun r => r.cell_type_full))) h1
  refine ⟨?_, ?_, ?_⟩
  · simp only [buildTissueVectors, alignedCategories]
    rw [key]
  · simp only [buildTissueVectors, alignedCategories]
    rw [key]
  · intro ct hct
    exact jsSetDedup_subset _ ct (List.mem_of_mem_filter hct)

/-! ## Pair Ranking & Batch Processor — the paginated search route
(second GET variant of the search route file, lines 167-426) -/

/-- A receptor-ligand candidate pair. -/
structure RLPair where
  p1_id : String
  p1_name : String
  p2_id : String
  p2_name : String
deriving DecidableEq

/-- The route's `queryType` parameter. -/
inductive QueryType where
  | receptor
  | ligand
deriving DecidableEq

/-- The route's `searchMode` parameter (the tissue-specific mode of the
third variant is served before this processing loop and is not part of
it). -/
inductive SearchMode where
  | all
  | compare
deriving DecidableEq

/-- A fetched expression profile: the tissue and cell-type vectors returned
by `get_expression_matrix`. -/
abbrev ExpressionMatrix := List ℚ × List ℚ

/-- One successful entry of `results`: the source pushes
`{pair, features, expression}` with `features` the (possibly null) value of
`compute_coexpression_features` — no null check in this route variant — and
the expression matrices arranged by `queryType`. -/
structure SearchResult where
  pair : RLPair
  features : Option CoexpressionFeatures
  expression_receptor : ExpressionMatrix
  expression_ligand : ExpressionMatrix

/-- One SSE message written by the route: a `{currentGene}` progress
notification, the final `{results, hasMore, currentPage, errors?}` payload,
the compare-mode `{error, details, errors}` payload sent when nothing
succeeded, or the catch-all `{error: 'Error processing results', details}`
payload. -/
inductive Msg where
  | progress (currentGene : String)
  | finalResults (results : List SearchResult) (hasMore : Bool)
      (currentPage : ℕ) (errors : Option (List String))
  | compareError (errors : List String)
  | fatalError

/-- `queryType === 'receptor' ? pair.p1_id : pair.p2_id` — the entity
fetched first. -/
def receptorIdOf (qt : QueryType) (pair : RLPair) : String :=
  match qt with
  | .receptor => pair.p1_id
  | .ligand => pair.p2_id

/-- `queryType === 'receptor' ? pair.p2_id : pair.p1_id` — the entity
fetched second. -/
def ligandIdOf (qt : QueryType) (pair : RLPair) : String :=
  match qt with
  | .receptor => pair.p2_id
  | .ligand => pair.p1_id

/-- The pair-scoped fetch failure message, whose wording depends on the
search mode. -/
def fetchErrorMsg (mode : SearchMode) (role id : String) : String :=
  match mode with
  | .compare => "Could not fetch expression data for " ++ role ++ " \"" ++ id
      ++ "\". Please verify this gene name or UniProt ID exists."
  | .all => "Could not fetch expression data for " ++ role ++ " " ++ id

/-- One iteration of the `for (const pair of pairs)` loop: emit a progress
message naming the first entity, fetch it (a `null` fetch records an error
and moves on), then the same for the second entity, and on success push the
result record.  Returns the messages written, the optional result and the
optional error of this iteration; the loop's `try/catch` arm only repeats
the error accumulation and has no separate behaviour in this pure model. -/
noncomputable def processPairStep (fetch : String → Option ExpressionMatrix)
    (qt : QueryType) (mode : SearchMode) (pair : RLPair) :
    List Msg × Option SearchResult × Option String :=
  let receptorId := receptorIdOf qt pair
  match fetch receptorId with
  | none => ([Msg.progress receptorId], none,
      some (fetchErrorMsg mode "receptor" receptorId))
  | some receptorExpr =>
    let ligandId := ligandIdOf qt pair
    match fetch ligandId with
    | none => ([Msg.progress receptorId, Msg.progress ligandId], none,
        some (fetchErrorMsg mode "ligand" ligandId))
    | some ligandExpr =>
      ([Msg.progress receptorId, Msg.progress ligandId],
        some ⟨pair, compute_coexpression_features receptorExpr ligandExpr,
          (match qt with | .receptor => receptorExpr | .ligand => ligandExpr),
          (match qt with | .receptor => ligandExpr | .ligand => receptorExpr)⟩,
        none)

/-- The whole loop over the page's pairs, accumulating messages, results
and errors in order. -/
noncomputable def runPairs (fetch : String → Option ExpressionMatrix)
    (qt : QueryType) (mode : SearchMode) :
    List RLPair → List Msg × List SearchResult × List String
  | [] => ([], [], [])
  | p :: ps =>
    let step := processPairStep fetch qt mode p
    let rest := runPairs fetch qt mode ps
    (step.1 ++ rest.1, step.2.1.toList ++ rest.2.1,
      step.2.2.toList ++ rest.2.2)

/-- Model of `results.sort((a, b) => b.features.combined.pearson_corr -
a.features.combined.pearson_corr)`.  `features` here is the flat
`CoexpressionFeatures` record of `compute_coexpression_features` (or null):
it has no `combined` property, so `b.features.combined` is `undefined`
(and the access itself throws when `features` is null), and reading
`.pearson_corr` of `undefined` throws a TypeError the first time the
comparator runs.  A correct sort invokes its comparator if and only if the
array has at least two elements, so the call returns the array unchanged
for lengths 0 and 1 and throws (`none`) otherwise. -/
def jsSortByCombined : List SearchResult → Option (List SearchResult)
  | [] => some []
  | [r] => some [r]
  | _ => none

/-- `const MAX_PAIRS_PER_REQUEST = 50`. -/
def MAX_PAIRS_PER_REQUEST : ℕ := 50

/-- `allPairs.slice(startIdx, startIdx + pageSize)` with
`startIdx = (page - 1) * pageSize`, for a 1-based page number (for
`page ≥ 1` both slice indices are nonnegative, so JS slice is
drop-then-take). -/
def pairsForPage (allPairs : List RLPair) (page pageSize : ℕ) : List RLPair :=
  (allPairs.drop ((page - 1) * pageSize)).take pageSize

/-- `hasMore: pairs.length === MAX_PAIRS_PER_REQUEST` generalized over the
page size constant. -/
def hasMoreFlag (pagePairs : List RLPair) (pageSize : ℕ) : Bool :=
  pagePairs.length == pageSize

/-- The terminal message of a page: sort the successes (which throws with
two or more of them, reaching the catch-all writer), then either the
compare-mode "nothing succeeded" error payload, or the final results
payload with `errors` attached only when nonempty. -/
def pageTerminal (mode : SearchMode) (page : ℕ) (pagePairs : List RLPair)
    (results : List SearchResult) (errors : List String) : Msg :=
  match jsSortByCombined results with
  | none => Msg.fatalError
  | some sorted =>
    if mode = SearchMode.compare ∧ sorted.isEmpty ∧ ¬errors.isEmpty then
      Msg.compareError errors
    else
      Msg.finalResults sorted (hasMoreFlag pagePairs MAX_PAIRS_PER_REQUEST)
        page (if errors.isEmpty then none else some errors)

/-- The full message sequence written for one page of pairs: the per-pair
progress messages in order, then exactly one terminal message. -/
noncomputable def runPage (fetch : String → Option ExpressionMatrix)
    (qt : QueryType) (mode : SearchMode) (page : ℕ)
    (pagePairs : List RLPair) : List Msg :=
  let run := runPairs fetch qt mode pagePairs
  run.1 ++ [pageTerminal mode page pagePairs run.2.1 run.2.2]

/-- True for the three terminal message kinds, false for progress
notifications. -/
def isTerminalMsg : Msg → Bool
  | .progress _ => false
  | _ => true

/-- True for a progress notification naming the given entity. -/
def isProgressNaming (id : String) : Msg → Bool
  | .progress g => g == id
  | _ => false

/-- True for the final `{results, hasMore, currentPage, errors?}` payload. -/
def isFinalResultsMsg : Msg → Bool
  | .finalResults _ _ _ _ => true
  | _ => false

/-- Number of results carried by a terminal message (0 for the error
payloads). -/
def resultCountOf : Msg → ℕ
  | .finalResults rs _ _ _ => rs.length
  | _ => 0

/-- Error list carried by a terminal message. -/
def carriedErrors : Msg → List String
  | .finalResults _ _ _ (some es) => es
  | .compareError es => es
  | _ => []

/-! ## Claim C5 — pagination slice and `hasMore` -/

/-- Claim C5: for a 1-based page number, the processed page is exactly the
slice of the candidate list from `(page-1)*pageSize` (inclusive) to
`page*pageSize` (exclusive), and the `hasMore` flag is true exactly when
that slice is full. -/
theorem C5_page_slice_and_hasMore (allPairs : List RLPair)
    (page pageSize : ℕ) (h : 1 ≤ page) :
    pairsForPage allPairs page pageSize
      = (allPairs.take (page * pageSize)).drop ((page - 1) * pageSize) ∧
    (hasMoreFlag (pairsForPage allPairs page pageSize) pageSize = true ↔
      (pairsForPage allPairs page pageSize).length = pageSize) := by
  constructor
  · have hmul : (page - 1) * pageSize + pageSize = page * pageSize := by
      have h2 : page - 1 + 1 = page := Nat.succ_pred_eq_of_pos h
      calc (page - 1) * pageSize + pageSize
          = (page - 1 + 1) * pageSize := by ring
        _ = page * pageSize := by rw [h2]
    rw [pairsForPage, ← hmul, List.drop_take]
    congr 1
    omega
  · simp [hasMoreFlag]

/-- Concrete pair list of 120 identical candidates for Scenario D. -/
def pairs120 : List RLPair := List.replicate 120 ⟨"R", "R", "L", "L"⟩

/-- Claim C5, witness: Scenario D — 120 candidates with page size 50 give a
full page 1 with `hasMore = true` and a 20-element page 3 with
`hasMore = false`; the slice characterization is instantiated at page 3. -/
theorem C5_witness :
    (pairsForPage pairs120 1 50).length = 50 ∧
    hasMoreFlag (pairsForPage pairs120 1 50) 50 = true ∧
    (pairsForPage pairs120 3 50).length = 20 ∧
    hasMoreFlag (pairsForPage pairs120 3 50) 50 = false ∧
    (pairsForPage pairs120 3 50
      = (pairs120.take (3 * 50)).drop ((3 - 1) * 50) ∧
     (hasMoreFlag (pairsForPage pairs120 3 50) 50 = true ↔
      (pairsForPage pairs120 3 50).length = 50)) :=
  ⟨by decide, by decide, by decide, by decide,
    C5_page_slice_and_hasMore pairs120 3 50 (by decide)⟩

/-! ## Claim C4 — ranking of successful results -/

/-- A profile fetch that always succeeds with fixed vectors. -/
def fetchConst : String → Option ExpressionMatrix :=
  fun _ => some ([1, 2], [1, 2])

/-- Claim C4, code bug evidence: on a page whose two pairs both fetch
successfully, the sort comparator's read of the nonexistent
`features.combined` throws, so the route's terminal message is the
catch-all error payload, not a sorted results list; with a single success
(where a correct sort never invokes the comparator) the final results
payload is sent. -/
theorem C4_sort_comparator_crash :
    (runPage fetchConst QueryType.receptor SearchMode.compare 1
      [⟨"R1", "R1", "L1", "L1"⟩, ⟨"R2", "R2", "L2", "L2"⟩]).getLast?
      = some Msg.fatalError ∧
    ((runPage fetchConst QueryType.receptor SearchMode.compare 1
      [⟨"R1", "R1", "L1", "L1"⟩]).getLast?.map isFinalResultsMsg)
      = some true := by
  exact ⟨rfl, rfl⟩

/-! ## Claims C7 and C9 — terminal message selection and message shape -/

lemma processPairStep_one_outcome (fetch : String → Option ExpressionMatrix)
    (qt : QueryType) (mode : SearchMode) (pair : RLPair) :
    (processPairStep fetch qt mode pair).2.1.toList.length
      + (processPairStep fetch qt mode pair).2.2.toList.length = 1 := by
  unfold processPairStep
  cases h1 : fetch (receptorIdOf qt pair) with
  | none => simp [h1]
  | some receptorExpr =>
    cases h2 : fetch (ligandIdOf qt pair) with
    | none => simp [h1, h2]
    | some ligandExpr => simp [h1, h2]

lemma runPairs_outcome_count (fetch : String → Option ExpressionMatrix)
    (qt : QueryType) (mode : SearchMode) (pairs : List RLPair) :
    (runPairs fetch qt mode pairs).2.1.length
      + (runPairs fetch qt mode pairs).2.2.length = pairs.length := by
  induction pairs with
  | nil => rfl
  | cons p ps ih =>
    have hstep := processPairStep_one_outcome fetch qt mode p
    simp only [runPairs, List.length_append, List.length_cons]
    omega

lemma runPairs_msgs_eq_bind (fetch : String → Option ExpressionMatrix)
    (qt : QueryType) (mode : SearchMode) (pairs : List RLPair) :
    (runPairs fetch qt mode pairs).1
      = pairs.flatMap (fun p => (processPairStep fetch qt mode p).1) := by
  induction pairs with
  | nil => rfl
  | cons p ps ih =>
    simp only [runPairs, List.flatMap_cons, ih]

lemma processPairStep_msgs_progress (fetch : String → Option ExpressionMatrix)
    (qt : QueryType) (mode : SearchMode) (pair : RLPair) :
    ∀ m ∈ (processPairStep fetch qt mode pair).1, isTerminalMsg m = false := by
  unfold processPairStep
  cases h1 : fetch (receptorIdOf qt pair) with
  | none =>
    intro m hm
    simp only [h1, List.mem_cons, List.not_mem_nil, or_false] at hm
    subst hm; rfl
  | some receptorExpr =>
    cases h2 : fetch (ligandIdOf qt pair) with
    | none =>
      intro m hm
      simp only [h1, h2, List.mem_cons, List.not_mem_nil, or_false] at hm
      rcases hm with rfl | rfl <;> rfl
    | some ligandExpr =>
      intro m hm
      simp only [h1, h2, List.mem_cons, List.not_mem_nil, or_false] at hm
      rcases hm with rfl | rfl <;> rfl

lemma pageTerminal_is_terminal (mode : SearchMode) (page : ℕ)
    (pagePairs : List RLPair) (results : List SearchResult)
    (errors : List String) :
    isTerminalMsg (pageTerminal mode page pagePairs results errors) = true := by
  unfold pageTerminal
  split
  · rfl
  · split <;> rfl

/-- Claim C9, amended: the page's message sequence is, for each pair in
order, a progress notification naming the first-fetched entity, followed —
only when that first fetch succeeded — by a progress notification naming
the second entity (a failed first fetch skips the second notification),
and the sequence ends with exactly one terminal message. -/
theorem C9_amended_message_sequence (fetch : String → Option ExpressionMatrix)
    (qt : QueryType) (mode : SearchMode) (page : ℕ) (pairs : List RLPair) :
    runPage fetch qt mode page pairs
      = (pairs.flatMap (fun p => (processPairStep fetch qt mode p).1))
        ++ [pageTerminal mode page pairs (runPairs fetch qt mode pairs).2.1
            (runPairs fetch qt mode pairs).2.2] ∧
    ((runPage fetch qt mode page pairs).filter isTerminalMsg).length = 1 ∧
    ∀ p : RLPair,
      (processPairStep fetch qt mode p).1
        = match fetch (receptorIdOf qt p) with
          | none => [Msg.progress (receptorIdOf qt p)]
          | some _ => [Msg.progress (receptorIdOf qt p),
              Msg.progress (ligandIdOf qt p)] := by
  refine ⟨?_, ?_, ?_⟩
  · simp only [runPage]
    rw [runPairs_msgs_eq_bind]
  · simp only [runPage]
    rw [List.filter_append]
    have hmsgs : ((runPairs fetch qt mode pairs).1.filter isTerminalMsg) = [] := by
      rw [runPairs_msgs_eq_bind]
      induction pairs with
      | nil => rfl
      | cons p ps ih =>
        rw [List.flatMap_cons, List.filter_append, ih, List.append_nil,
          List.filter_eq_nil_iff]
        intro m hm
        simp [processPairStep_msgs_progress fetch qt mode p m hm]
    rw [hmsgs]
    simp [pageTerminal_is_terminal]
  · intro p
    cases h1 : fetch (receptorIdOf qt p) with
    | none => simp [processPairStep, h1]
    | some receptorExpr =>
      cases h2 : fetch (ligandIdOf qt p) with
      | none => simp [processPairStep, h1, h2]
      | some ligandExpr => simp [processPairStep, h1, h2]

/-- A profile fetch that always fails. -/
def fetchNothing : String → Option ExpressionMatrix := fun _ => none

/-- Claim C9, counterexample: for a single pair whose first fetch fails, no
progress notification naming the second entity is ever emitted (the claim
requires one before entity 2's fetch), while the first entity's
notification and exactly one terminal message are. -/
theorem C9_cex_missing_second_notification :
    ((runPage fetchNothing QueryType.receptor SearchMode.compare 1
      [⟨"A", "A", "B", "B"⟩]).filter (isProgressNaming "B")).length = 0 ∧
    ((runPage fetchNothing QueryType.receptor SearchMode.compare 1
      [⟨"A", "A", "B", "B"⟩]).filter (isProgressNaming "A")).length = 1 ∧
    ((runPage fetchNothing QueryType.receptor SearchMode.compare 1
      [⟨"A", "A", "B", "B"⟩]).filter isTerminalMsg).length = 1 := by
  exact ⟨rfl, rfl, rfl⟩

/-- Claim C7, amended: in COMPARE mode, a nonempty page with zero successes
ends with the `{error, details, errors}` payload carrying the accumulated
(nonempty) error list and no results.  (In search-all mode the terminal is
instead a results payload with an empty list — see the counterexample.) -/
theorem C7_amended_compare_mode_error_payload
    (fetch : String → Option ExpressionMatrix) (qt : QueryType) (page : ℕ)
    (pairs : List RLPair) (hne : pairs ≠ [])
    (hzero : (runPairs fetch qt SearchMode.compare pairs).2.1 = []) :
    (runPairs fetch qt SearchMode.compare pairs).2.2 ≠ [] ∧
    (runPage fetch qt SearchMode.compare page pairs).getLast?
      = some (Msg.compareError
          ((runPairs fetch qt SearchMode.compare pairs).2.2)) := by
  have hcount := runPairs_outcome_count fetch qt SearchMode.compare pairs
  rw [hzero] at hcount
  simp only [List.length_nil, Nat.zero_add] at hcount
  have hpos : 0 < pairs.length := List.length_pos.mpr hne
  have herr : (runPairs fetch qt SearchMode.compare pairs).2.2 ≠ [] := by
    intro hcontra
    rw [hcontra] at hcount
    simp at hcount
    omega
  refine ⟨herr, ?_⟩
  unfold runPage
  rw [List.getLast?_concat]
  congr 1
  unfold pageTerminal
  rw [hzero]
  show (if SearchMode.compare = SearchMode.compare ∧ (List.isEmpty [])
      ∧ ¬(runPairs fetch qt SearchMode.compare pairs).2.2.isEmpty then _ else _) = _
  rw [if_pos ⟨rfl, by simp, by simp [List.isEmpty_iff, herr]⟩]

/-- Claim C7, counterexample: in search-ALL mode the same situation — a
nonempty page with zero successes — ends with a RESULTS payload carrying an
empty results list and the error, not with an errors-only payload: the
errors-only terminal is conditioned on compare mode. -/
theorem C7_cex_all_mode_empty_results_payload :
    ((runPage fetchNothing QueryType.receptor SearchMode.all 1
      [⟨"P1", "P1", "P2", "P2"⟩]).getLast?.map isFinalResultsMsg)
      = some true ∧
    ((runPage fetchNothing QueryType.receptor SearchMode.all 1
      [⟨"P1", "P1", "P2", "P2"⟩]).getLast?.map resultCountOf) = some 0 ∧
    ((runPage fetchNothing QueryType.receptor SearchMode.all 1
      [⟨"P1", "P1", "P2", "P2"⟩]).getLast?.map
        (fun m => (carriedErrors m).length)) = some 1 := by
  exact ⟨rfl, rfl, rfl⟩

/-- Claim C7, witness: a concrete compare-mode page of one pair whose fetch
fails satisfies the amended theorem's hypotheses, and its terminal message
is the errors-only payload. -/
theorem C7_witness :
    (([⟨"P1", "P1", "P2", "P2"⟩] : List RLPair) ≠ []) ∧
    ((runPairs fetchNothing QueryType.receptor SearchMode.compare
      [⟨"P1", "P1", "P2", "P2"⟩]).2.1 = []) ∧
    ((runPairs fetchNothing QueryType.receptor SearchMode.compare
      [⟨"P1", "P1", "P2", "P2"⟩]).2.2 ≠ [] ∧
     (runPage fetchNothing QueryType.receptor SearchMode.compare 1
        [⟨"P1", "P1", "P2", "P2"⟩]).getLast?
      = some (Msg.compareError
          ((runPairs fetchNothing QueryType.receptor SearchMode.compare
            [⟨"P1", "P1", "P2", "P2"⟩]).2.2))) := by
  refine ⟨by simp, rfl, ?_⟩
  exact C7_amended_compare_mode_error_payload fetchNothing QueryType.receptor 1
    [⟨"P1", "P1", "P2", "P2"⟩] (by simp) rfl

end Coexpr
